import Mathlib

/-
Verification of the Gemini media-generation service layer (geminiService):
the request normalizer, the long-running-operation polling loop, the binary
asset fetch, and the error propagation of generateVideo, generateAudio and
enhancePrompt.  The remote service is modelled as an explicit environment
(the submission result, the sequence of poll responses, the fetch results);
each service function is a pure function of its parameters and that
environment, additionally returning a trace of the remote calls it issued.
-/

namespace GeminiService

/-- Generation modes of a video request (the GenerationMode enum). -/
inductive GenerationMode where
  | TEXT_TO_VIDEO
  | FRAMES_TO_VIDEO
  | REFERENCES_TO_VIDEO
  | EXTEND_VIDEO
deriving DecidableEq, Repr

/-- An image supplied by the caller: base64 payload plus the file's MIME
type and name (img.base64, img.file.type, img.file.name). -/
structure ImageFile where
  base64 : String
  fileType : String
  fileName : String
deriving DecidableEq, Repr

/-- The vendor Video descriptor: a video with an optional uri. -/
structure Video where
  uri : Option String
deriving DecidableEq, Repr

/-- One entry of operation.response.generatedVideos. -/
structure GeneratedVideo where
  video : Option Video
deriving DecidableEq, Repr

/-- The result payload of a completed operation. -/
structure OperationResponse where
  generatedVideos : Option (List GeneratedVideo)
deriving DecidableEq, Repr

/-- A long-running operation handle: done flag and, possibly, a result. -/
structure Operation where
  done : Bool
  response : Option OperationResponse
deriving DecidableEq, Repr

/-- The parameters of generateVideo (GenerateVideoParams from types). -/
structure GenerateVideoParams where
  model : String
  prompt : String
  mode : GenerationMode
  resolution : String
  aspectRatio : String
  startFrame : Option ImageFile
  endFrame : Option ImageFile
  isLooping : Bool
  referenceImages : Option (List ImageFile)
  styleImage : Option ImageFile
  inputVideoObject : Option Video
deriving DecidableEq, Repr

/-- Reference type tag of a reference-image payload entry. -/
inductive ReferenceType where
  | ASSET
  | STYLE
deriving DecidableEq, Repr

/-- An image as sent to the vendor: imageBytes plus mimeType. -/
structure ImagePayload where
  imageBytes : String
  mimeType : String
deriving DecidableEq, Repr

/-- One entry of config.referenceImages. -/
structure ReferenceImagePayload where
  image : ImagePayload
  referenceType : ReferenceType
deriving DecidableEq, Repr

/-- The config object of the normalized payload. -/
structure VideoConfig where
  numberOfVideos : Nat
  resolution : String
  aspectRatio : Option String
  lastFrame : Option ImagePayload
  referenceImages : Option (List ReferenceImagePayload)
deriving DecidableEq, Repr

/-- The normalized generateVideoPayload sent to ai.models.generateVideos. -/
structure GenerateVideoPayload where
  model : String
  config : VideoConfig
  prompt : Option String
  image : Option ImagePayload
  video : Option Video
deriving DecidableEq, Repr

/-- Convert a caller image into the vendor shape
(imageBytes := img.base64, mimeType := img.file.type). -/
def imagePayloadOf (img : ImageFile) : ImagePayload :=
  { imageBytes := img.base64, mimeType := img.fileType }

/-- The payload before the mode-specific branches run: numberOfVideos 1,
resolution from the request, aspectRatio unless mode is EXTEND_VIDEO, and
the prompt only when it is non-empty (an empty string is falsy in the
source's `if (params.prompt)`). -/
def basePayload (params : GenerateVideoParams) : GenerateVideoPayload :=
  let config : VideoConfig :=
    { numberOfVideos := 1
      resolution := params.resolution
      aspectRatio :=
        if params.mode ≠ GenerationMode.EXTEND_VIDEO then some params.aspectRatio else none
      lastFrame := none
      referenceImages := none }
  let payload : GenerateVideoPayload :=
    { model := params.model
      config := config
      prompt := none
      image := none
      video := none }
  if params.prompt ≠ "" then { payload with prompt := some params.prompt } else payload

/-- The request normalizer of generateVideo: the mode-specific branches that
attach the start frame, the effective end frame, the reference-image list, or
the input video, run on top of basePayload.  The EXTEND_VIDEO branch fails
when no input video object was supplied, before any remote call. -/
def buildPayload (params : GenerateVideoParams) : Except String GenerateVideoPayload :=
  let payload := basePayload params
  match params.mode with
  | GenerationMode.FRAMES_TO_VIDEO =>
    let payload :=
      match params.startFrame with
      | some sf => { payload with image := some (imagePayloadOf sf) }
      | none => payload
    let finalEndFrame := if params.isLooping then params.startFrame else params.endFrame
    let payload :=
      match finalEndFrame with
      | some ef =>
        { payload with config := { payload.config with lastFrame := some (imagePayloadOf ef) } }
      | none => payload
    Except.ok payload
  | GenerationMode.REFERENCES_TO_VIDEO =>
    let referenceImagesPayload : List ReferenceImagePayload :=
      match params.referenceImages with
      | some imgs =>
        imgs.foldl
          (fun acc img =>
            acc ++ [{ image := imagePayloadOf img, referenceType := ReferenceType.ASSET }])
          []
      | none => []
    let referenceImagesPayload : List ReferenceImagePayload :=
      match params.styleImage with
      | some s =>
        referenceImagesPayload ++
          [{ image := imagePayloadOf s, referenceType := ReferenceType.STYLE }]
      | none => referenceImagesPayload
    if referenceImagesPayload.length > 0 then
      Except.ok
        { payload with config := { payload.config with referenceImages := some referenceImagesPayload } }
    else
      Except.ok payload
  | GenerationMode.EXTEND_VIDEO =>
    match params.inputVideoObject with
    | some v => Except.ok { payload with video := some v }
    | none => Except.error "An input video object is required to extend a video."
  | GenerationMode.TEXT_TO_VIDEO => Except.ok payload

/-- Value of one hexadecimal digit, if the character is one. -/
def hexVal (c : Char) : Option Nat :=
  if '0' ≤ c ∧ c ≤ '9' then some (c.toNat - '0'.toNat)
  else if 'a' ≤ c ∧ c ≤ 'f' then some (c.toNat - 'a'.toNat + 10)
  else if 'A' ≤ c ∧ c ≤ 'F' then some (c.toNat - 'A'.toNat + 10)
  else none

/-- Percent-decoding on a character list: a '%' followed by two hex digits
becomes the character with that code, anything else is kept.  This models
the JavaScript decodeURIComponent on single-byte escapes, which is the form
the video URIs use. -/
def decodeChars : List Char → List Char
  | [] => []
  | '%' :: a :: b :: rest =>
    match hexVal a, hexVal b with
    | some ha, some hb => Char.ofNat (16 * ha + hb) :: decodeChars rest
    | _, _ => '%' :: decodeChars (a :: b :: rest)
  | c :: rest => c :: decodeChars rest

/-- Percent-decoding of a string (decodeURIComponent). -/
def decodeURIComponent (s : String) : String :=
  String.mk (decodeChars s.data)

/-- A transport response of fetch: ok flag, numeric status, status text,
and the body bytes (the blob). -/
structure FetchResponse where
  ok : Bool
  status : Nat
  statusText : String
  blob : String
deriving DecidableEq, Repr

/-- The remote environment of one generateVideo call: the API key, the
result of the submission (ai.models.generateVideos), the successive results
of the status re-fetches (ai.operations.getVideosOperation), the results of
binary fetches by URL, and the object-URL allocator.  An Except.error models
a rejected call carrying that error message. -/
structure VideoEnv where
  apiKey : String
  submit : GenerateVideoPayload → Except String Operation
  polls : List (Except String Operation)
  fetch : String → Except String FetchResponse
  createObjectURL : String → String

/-- Trace of the remote calls one generateVideo run issued: how many
submissions, how many status re-fetches, and the URL of the binary fetch
when one was issued. -/
structure CallTrace where
  submits : Nat
  polls : Nat
  fetched : Option String
deriving DecidableEq, Repr

/-- The result of a successful generateVideo call. -/
structure VideoResult where
  objectUrl : String
  blob : String
  uri : String
  video : Video
deriving DecidableEq, Repr

/-- The polling loop of generateVideo: while the operation is not done,
re-fetch its status from the environment's trace.  Returns the final done
operation (or the message of a rejected re-fetch) together with the number
of re-fetches issued; none when the trace runs out before the operation is
done, which models a loop that is still running. -/
def pollLoop (op : Operation) (polls : List (Except String Operation)) (n : Nat) :
    Option (Except String Operation × Nat) :=
  if op.done then some (Except.ok op, n)
  else
    match polls with
    | [] => none
    | Except.error m :: _ => some (Except.error m, n + 1)
    | Except.ok next :: rest => pollLoop next rest (n + 1)

/-- The generateVideo service function: normalize the request, submit it,
poll until done, inspect the completed result, fetch the binary asset and
return the displayable handle.  Mirrors the source statement by statement;
the source has no try/catch here, so every rejection of a remote call
propagates to the caller unchanged. -/
def generateVideo (env : VideoEnv) (params : GenerateVideoParams) :
    Option (Except String VideoResult × CallTrace) :=
  match buildPayload params with
  | Except.error e => some (Except.error e, ⟨0, 0, none⟩)
  | Except.ok payload =>
    match env.submit payload with
    | Except.error e => some (Except.error e, ⟨1, 0, none⟩)
    | Except.ok op0 =>
      match pollLoop op0 env.polls 0 with
      | none => none
      | some (Except.error e, n) => some (Except.error e, ⟨1, n, none⟩)
      | some (Except.ok opF, n) =>
        match opF.response with
        | none => some (Except.error "No videos generated.", ⟨1, n, none⟩)
        | some resp =>
          match resp.generatedVideos with
          | none => some (Except.error "No videos were generated.", ⟨1, n, none⟩)
          | some [] => some (Except.error "No videos were generated.", ⟨1, n, none⟩)
          | some (firstVideo :: _) =>
            match firstVideo.video with
            | none => some (Except.error "Generated video is missing a URI.", ⟨1, n, none⟩)
            | some videoObject =>
              match videoObject.uri with
              | none => some (Except.error "Generated video is missing a URI.", ⟨1, n, none⟩)
              | some encodedUri =>
                if encodedUri = "" then
                  some (Except.error "Generated video is missing a URI.", ⟨1, n, none⟩)
                else
                  let url := decodeURIComponent encodedUri
                  let fetchUrl := url ++ "&key=" ++ env.apiKey
                  match env.fetch fetchUrl with
                  | Except.error e => some (Except.error e, ⟨1, n, some fetchUrl⟩)
                  | Except.ok res =>
                    if res.ok then
                      some
                        (Except.ok
                          { objectUrl := env.createObjectURL res.blob
                            blob := res.blob
                            uri := url
                            video := videoObject },
                         ⟨1, n, some fetchUrl⟩)
                    else
                      some
                        (Except.error
                          ("Failed to fetch video: " ++ toString res.status ++ " " ++
                            res.statusText),
                         ⟨1, n, some fetchUrl⟩)

/-- The JavaScript string trim: drop leading and trailing whitespace. -/
def jsTrim (s : String) : String :=
  String.mk (((s.data.dropWhile Char.isWhitespace).reverse.dropWhile
    Char.isWhitespace).reverse)

/-- The remote environment of one enhancePrompt call: the result of the
single text-generation call, as a function of the contents string sent. -/
structure EnhanceEnv where
  generateContent : String → Except String String

/-- The enhancePrompt service function.  Returns the result together with
the contents string of the remote call when one was issued (none when the
empty-prompt precondition rejected the input first).  Failures inside the
try block are wrapped with the fixed text. -/
def enhancePrompt (env : EnhanceEnv) (prompt : String) :
    Except String String × Option String :=
  if jsTrim prompt = "" then
    (Except.error "Prompt cannot be empty.", none)
  else
    let contents := "User prompt: \"" ++ prompt ++ "\""
    match env.generateContent contents with
    | Except.error e => (Except.error ("Failed to enhance prompt: " ++ e), some contents)
    | Except.ok text =>
      let enhancedPrompt := jsTrim text
      if enhancedPrompt = "" then
        (Except.error "Failed to enhance prompt: The model returned an empty enhancement.",
         some contents)
      else
        (Except.ok enhancedPrompt, some contents)

/-- Inline data of a speech-synthesis response part. -/
structure InlineData where
  data : Option String
  mimeType : Option String
deriving DecidableEq, Repr

/-- One part of a response candidate's content. -/
structure AudioPart where
  inlineData : Option InlineData
deriving DecidableEq, Repr

/-- The content of a response candidate. -/
structure AudioContent where
  parts : Option (List AudioPart)
deriving DecidableEq, Repr

/-- One candidate of a speech-synthesis response. -/
structure AudioCandidate where
  content : Option AudioContent
deriving DecidableEq, Repr

/-- A speech-synthesis response. -/
structure AudioResponse where
  candidates : Option (List AudioCandidate)
deriving DecidableEq, Repr

/-- The optional chain
response.candidates?.[0]?.content?.parts?.[0]?.inlineData. -/
def responseInlineData (r : AudioResponse) : Option InlineData :=
  Option.bind r.candidates fun cs =>
    Option.bind cs.head? fun c =>
      Option.bind c.content fun content =>
        Option.bind content.parts fun ps =>
          Option.bind ps.head? fun p => p.inlineData

/-- Truthiness of an optional string: present and non-empty (JavaScript's
falsy values among strings are undefined and the empty string). -/
def truthy : Option String → Bool
  | none => false
  | some s => s ≠ ""

/-- The parameters of generateAudio: prompt text and voice name. -/
structure GenerateAudioParams where
  prompt : String
  voice : String
deriving DecidableEq, Repr

/-- The remote environment of one generateAudio call: the result of the
speech-synthesis call, as a function of the prompt and voice sent. -/
structure AudioEnv where
  generateContent : String → String → Except String AudioResponse

/-- The generateAudio service function.  Returns the result together with
the prompt and voice of the remote call that was issued; failures inside
the try block are wrapped with the fixed text.  There is no local
precondition check: the remote call is always made. -/
def generateAudio (env : AudioEnv) (params : GenerateAudioParams) :
    Except String String × Option (String × String) :=
  let called := some (params.prompt, params.voice)
  match env.generateContent params.prompt params.voice with
  | Except.error e => (Except.error ("Failed to generate audio: " ++ e), called)
  | Except.ok response =>
    let inlineData := responseInlineData response
    let base64Audio := Option.bind inlineData fun d => d.data
    let mimeType := Option.bind inlineData fun d => d.mimeType
    if truthy base64Audio = false ∨ truthy mimeType = false then
      (Except.error "Failed to generate audio: Audio data not found in the API response.",
       called)
    else
      (Except.ok
        ("data:" ++ mimeType.getD "" ++ ";base64," ++ base64Audio.getD ""),
       called)

/-- The retrievable URI of a generated-video entry: present exactly when the
entry has a video object whose uri is present and non-empty (the source's
`!firstVideo?.video?.uri` check). -/
def retrievableUri (gv : GeneratedVideo) : Option String :=
  match gv.video with
  | none => none
  | some v =>
    match v.uri with
    | none => none
    | some u => if u = "" then none else some u

lemma basePayload_config (params : GenerateVideoParams) :
    (basePayload params).config =
      { numberOfVideos := 1
        resolution := params.resolution
        aspectRatio :=
          if params.mode ≠ GenerationMode.EXTEND_VIDEO then some params.aspectRatio else none
        lastFrame := none
        referenceImages := none } := by
  by_cases h : params.prompt = "" <;> simp [basePayload, h]

lemma foldl_push_eq_map {α β : Type} (f : α → β) (l : List α) (acc : List β) :
    l.foldl (fun a x => a ++ [f x]) acc = acc ++ l.map f := by
  induction l generalizing acc with
  | nil => simp
  | cons x xs ih => simp [List.foldl, ih]

/-- C2: for a FRAMES_TO_VIDEO request the normalized config.lastFrame is the
start frame when isLooping is true (any distinct end frame the caller
supplied is ignored) and the caller's end frame when isLooping is false, and
the field is present exactly when that effective end frame is non-null. -/
theorem framesToVideo_lastFrame (params : GenerateVideoParams)
    (h : params.mode = GenerationMode.FRAMES_TO_VIDEO) :
    ∃ payload, buildPayload params = Except.ok payload ∧
      payload.config.lastFrame =
        Option.map imagePayloadOf
          (if params.isLooping then params.startFrame else params.endFrame) := by
  unfold buildPayload
  rw [h]
  cases hL : params.isLooping <;>
    cases hS : params.startFrame <;>
    cases hE : params.endFrame <;>
    exact ⟨_, rfl, by simp [basePayload_config]⟩

/-- C2 witness: a concrete looping FRAMES_TO_VIDEO request whose distinct
end frame is ignored in favour of the start frame. -/
theorem framesToVideo_lastFrame_witness :
    ∃ payload,
      buildPayload
        { model := "veo", prompt := "p", mode := GenerationMode.FRAMES_TO_VIDEO,
          resolution := "720p", aspectRatio := "16:9",
          startFrame := some ⟨"S", "image/png", "s.png"⟩,
          endFrame := some ⟨"E", "image/jpeg", "e.jpg"⟩,
          isLooping := true, referenceImages := none, styleImage := none,
          inputVideoObject := none } = Except.ok payload ∧
      payload.config.lastFrame =
        Option.map imagePayloadOf
          (if true then some (⟨"S", "image/png", "s.png"⟩ : ImageFile)
           else some (⟨"E", "image/jpeg", "e.jpg"⟩ : ImageFile)) :=
  framesToVideo_lastFrame
    { model := "veo", prompt := "p", mode := GenerationMode.FRAMES_TO_VIDEO,
      resolution := "720p", aspectRatio := "16:9",
      startFrame := some ⟨"S", "image/png", "s.png"⟩,
      endFrame := some ⟨"E", "image/jpeg", "e.jpg"⟩,
      isLooping := true, referenceImages := none, styleImage := none,
      inputVideoObject := none } rfl

/-- C3: a successfully normalized payload carries the request's aspect ratio
exactly when the mode is not EXTEND_VIDEO; for EXTEND_VIDEO the field is
absent. -/
theorem aspectRatio_iff_not_extend (params : GenerateVideoParams)
    (payload : GenerateVideoPayload)
    (h : buildPayload params = Except.ok payload) :
    payload.config.aspectRatio =
      (if params.mode = GenerationMode.EXTEND_VIDEO then none else some params.aspectRatio) := by
  unfold buildPayload at h
  cases hm : params.mode
  case TEXT_TO_VIDEO =>
    rw [hm] at h
    cases h
    simp [basePayload_config, hm]
  case FRAMES_TO_VIDEO =>
    rw [hm] at h
    cases hE : (if params.isLooping then params.startFrame else params.endFrame) <;>
      rw [hE] at h <;> cases h <;>
      cases hS : params.startFrame <;> simp [hS, basePayload_config, hm]
  case REFERENCES_TO_VIDEO =>
    rw [hm] at h
    dsimp only at h
    split at h <;> cases h <;> simp [basePayload_config, hm]
  case EXTEND_VIDEO =>
    rw [hm] at h
    cases hv : params.inputVideoObject <;> rw [hv] at h
    · cases h
    · cases h
      simp [basePayload_config, hm]

/-- C3 witness: a concrete TEXT_TO_VIDEO request whose normalized payload
carries the aspect ratio, by the theorem at that request. -/
theorem aspectRatio_iff_not_extend_witness :
    (basePayload
      { model := "veo", prompt := "p", mode := GenerationMode.TEXT_TO_VIDEO,
        resolution := "720p", aspectRatio := "16:9", startFrame := none,
        endFrame := none, isLooping := false, referenceImages := none,
        styleImage := none, inputVideoObject := none }).config.aspectRatio =
      (if GenerationMode.TEXT_TO_VIDEO = GenerationMode.EXTEND_VIDEO then none
       else some "16:9") :=
  aspectRatio_iff_not_extend
    { model := "veo", prompt := "p", mode := GenerationMode.TEXT_TO_VIDEO,
      resolution := "720p", aspectRatio := "16:9", startFrame := none,
      endFrame := none, isLooping := false, referenceImages := none,
      styleImage := none, inputVideoObject := none } _ rfl

/-- C4: for a REFERENCES_TO_VIDEO request the normalized reference-image
list has one asset-tagged entry per supplied reference image in input order,
followed by one style-tagged entry exactly when a style image is supplied,
and the list is attached exactly when it is non-empty. -/
theorem referencesToVideo_referenceImages (params : GenerateVideoParams)
    (h : params.mode = GenerationMode.REFERENCES_TO_VIDEO) :
    ∃ payload, buildPayload params = Except.ok payload ∧
      payload.config.referenceImages =
        (let entries : List ReferenceImagePayload :=
          (params.referenceImages.getD []).map
            (fun img => { image := imagePayloadOf img, referenceType := ReferenceType.ASSET }) ++
          (params.styleImage.map
            (fun s =>
              ({ image := imagePayloadOf s, referenceType := ReferenceType.STYLE } :
                ReferenceImagePayload))).toList
         if entries = [] then none else some entries) := by
  unfold buildPayload
  rw [h]
  cases hR : params.referenceImages <;> cases hSt : params.styleImage <;>
    dsimp only <;>
    (try rw [foldl_push_eq_map]) <;>
    split <;>
    refine ⟨_, rfl, ?_⟩ <;>
    simp_all [basePayload_config, List.length_eq_zero, List.length_pos]
/-- C4 witness: a concrete REFERENCES_TO_VIDEO request with two reference
images and a style image, by the theorem at that request. -/
theorem referencesToVideo_referenceImages_witness :
    ∃ payload,
      buildPayload
        { model := "veo", prompt := "p", mode := GenerationMode.REFERENCES_TO_VIDEO,
          resolution := "720p", aspectRatio := "16:9", startFrame := none,
          endFrame := none, isLooping := false,
          referenceImages := some [⟨"A", "image/png", "a.png"⟩, ⟨"B", "image/png", "b.png"⟩],
          styleImage := some ⟨"C", "image/png", "c.png"⟩,
          inputVideoObject := none } = Except.ok payload ∧
      payload.config.referenceImages =
        (let entries : List ReferenceImagePayload :=
          ((some [⟨"A", "image/png", "a.png"⟩, ⟨"B", "image/png", "b.png"⟩] :
              Option (List ImageFile)).getD []).map
            (fun img => { image := imagePayloadOf img, referenceType := ReferenceType.ASSET }) ++
          ((some ⟨"C", "image/png", "c.png"⟩ : Option ImageFile).map
            (fun s =>
              ({ image := imagePayloadOf s, referenceType := ReferenceType.STYLE } :
                ReferenceImagePayload))).toList
         if entries = [] then none else some entries) :=
  referencesToVideo_referenceImages
    { model := "veo", prompt := "p", mode := GenerationMode.REFERENCES_TO_VIDEO,
      resolution := "720p", aspectRatio := "16:9", startFrame := none,
      endFrame := none, isLooping := false,
      referenceImages := some [⟨"A", "image/png", "a.png"⟩, ⟨"B", "image/png", "b.png"⟩],
      styleImage := some ⟨"C", "image/png", "c.png"⟩,
      inputVideoObject := none } rfl

/-- C5: an EXTEND_VIDEO request lacking an input video object fails with the
validation error and the call trace shows no submission, no status re-fetch
and no binary fetch, whatever the remote environment would have answered. -/
theorem extendVideo_requires_input_video (env : VideoEnv) (params : GenerateVideoParams)
    (h1 : params.mode = GenerationMode.EXTEND_VIDEO)
    (h2 : params.inputVideoObject = none) :
    generateVideo env params =
      some (Except.error "An input video object is required to extend a video.",
        ⟨0, 0, none⟩) := by
  unfold generateVideo buildPayload
  rw [h1, h2]

/-- C5 witness: a concrete EXTEND_VIDEO request without an input video
object, under an environment that would have answered every call. -/
theorem extendVideo_requires_input_video_witness :
    generateVideo
      { apiKey := "k", submit := fun _ => Except.ok ⟨true, none⟩, polls := [],
        fetch := fun _ => Except.ok ⟨true, 200, "OK", "B"⟩,
        createObjectURL := fun b => b }
      { model := "veo", prompt := "", mode := GenerationMode.EXTEND_VIDEO,
        resolution := "720p", aspectRatio := "16:9", startFrame := none,
        endFrame := none, isLooping := false, referenceImages := none,
        styleImage := none, inputVideoObject := none } =
      some (Except.error "An input video object is required to extend a video.",
        ⟨0, 0, none⟩) :=
  extendVideo_requires_input_video _ _ rfl rfl
/-- C8: enhancePrompt rejects an empty or whitespace-only prompt with the
fixed message and without issuing the remote call; for any other prompt the
remote text-generation call is issued, with the prompt embedded in the
contents string. -/
theorem enhancePrompt_empty_fails_fast (env : EnhanceEnv) (prompt : String) :
    (jsTrim prompt = "" →
      enhancePrompt env prompt = (Except.error "Prompt cannot be empty.", none)) ∧
    (jsTrim prompt ≠ "" →
      (enhancePrompt env prompt).2 = some ("User prompt: \"" ++ prompt ++ "\"")) := by
  constructor
  · intro he
    simp [enhancePrompt, he]
  · intro hne
    unfold enhancePrompt
    rw [if_neg hne]
    dsimp only
    split
    · rfl
    · split <;> rfl

/-- C8 witness: the empty prompt and a three-space prompt are both rejected
without a remote call, and a plain prompt does reach the remote call. -/
theorem enhancePrompt_empty_fails_fast_witness :
    (enhancePrompt ⟨fun _ => Except.ok "fine"⟩ "" =
      (Except.error "Prompt cannot be empty.", none)) ∧
    (enhancePrompt ⟨fun _ => Except.ok "fine"⟩ "   " =
      (Except.error "Prompt cannot be empty.", none)) ∧
    ((enhancePrompt ⟨fun _ => Except.ok "fine"⟩ "a cat").2 =
      some ("User prompt: \"" ++ "a cat" ++ "\"")) :=
  ⟨(enhancePrompt_empty_fails_fast ⟨fun _ => Except.ok "fine"⟩ "").1 (by decide),
   (enhancePrompt_empty_fails_fast ⟨fun _ => Except.ok "fine"⟩ "   ").1 (by decide),
   (enhancePrompt_empty_fails_fast ⟨fun _ => Except.ok "fine"⟩ "a cat").2 (by decide)⟩

/-- C10: generateAudio checks no local precondition: for every parameter
value, the empty prompt included, the remote speech-synthesis call is issued
with exactly the request's prompt and voice; and on a fulfilled remote
response the call fails exactly when the response lacks inline audio data or
a MIME type, with the fixed wrapped message. -/
theorem generateAudio_no_precondition (env : AudioEnv) (params : GenerateAudioParams) :
    (generateAudio env params).2 = some (params.prompt, params.voice) ∧
    (∀ resp, env.generateContent params.prompt params.voice = Except.ok resp →
      ((generateAudio env params).1 =
          Except.error "Failed to generate audio: Audio data not found in the API response." ↔
        (truthy (Option.bind (responseInlineData resp) fun d => d.data) = false ∨
         truthy (Option.bind (responseInlineData resp) fun d => d.mimeType) = false))) := by
  constructor
  · unfold generateAudio
    dsimp only
    split
    · rfl
    · split <;> rfl
  · intro resp hresp
    unfold generateAudio
    rw [hresp]
    by_cases hc :
        truthy (Option.bind (responseInlineData resp) fun d => d.data) = false ∨
          truthy (Option.bind (responseInlineData resp) fun d => d.mimeType) = false
    · simp [hc]
    · simp [hc]

/-- C10 witness: with an empty prompt the remote call is still issued, and a
fulfilled response carrying neither inline data nor a MIME type makes the
call fail with the fixed message. -/
theorem generateAudio_no_precondition_witness :
    ((generateAudio ⟨fun _ _ => Except.ok ⟨some [⟨some ⟨some [⟨none⟩]⟩⟩]⟩⟩
        ⟨"", "Zephyr"⟩).2 = some ("", "Zephyr")) ∧
    ((generateAudio ⟨fun _ _ => Except.ok ⟨some [⟨some ⟨some [⟨none⟩]⟩⟩]⟩⟩
        ⟨"", "Zephyr"⟩).1 =
      Except.error "Failed to generate audio: Audio data not found in the API response.") :=
  ⟨(generateAudio_no_precondition ⟨fun _ _ => Except.ok ⟨some [⟨some ⟨some [⟨none⟩]⟩⟩]⟩⟩
      ⟨"", "Zephyr"⟩).1,
   ((generateAudio_no_precondition ⟨fun _ _ => Except.ok ⟨some [⟨some ⟨some [⟨none⟩]⟩⟩]⟩⟩
      ⟨"", "Zephyr"⟩).2 ⟨some [⟨some ⟨some [⟨none⟩]⟩⟩]⟩ rfl).mpr (Or.inl rfl)⟩
lemma pollLoop_done (op : Operation) (h : op.done = true) (polls : List (Except String Operation)) (n : Nat) :
    pollLoop op polls n = some (Except.ok op, n) := by
  unfold pollLoop
  rw [if_pos h]

lemma pollLoop_cons_ok (op next : Operation) (h : op.done = false)
    (rest : List (Except String Operation)) (n : Nat) :
    pollLoop op (Except.ok next :: rest) n = pollLoop next rest (n + 1) := by
  rw [pollLoop]
  rw [if_neg (by simp [h])]

lemma pollLoop_cons_error (op : Operation) (h : op.done = false) (m : String)
    (rest : List (Except String Operation)) (n : Nat) :
    pollLoop op (Except.error m :: rest) n = some (Except.error m, n + 1) := by
  rw [pollLoop]
  rw [if_neg (by simp [h])]

lemma pollLoop_error_trace (m : String) (rest : List (Except String Operation))
    (goods : List Operation) :
    ∀ (op0 : Operation) (n : Nat),
      op0.done = false → (∀ op ∈ goods, op.done = false) →
      pollLoop op0 (goods.map Except.ok ++ Except.error m :: rest) n =
        some (Except.error m, n + goods.length + 1) := by
  induction goods with
  | nil =>
    intro op0 n h0 _
    simpa using pollLoop_cons_error op0 h0 m rest n
  | cons g gs ih =>
    intro op0 n h0 hg
    rw [List.map_cons, List.cons_append, pollLoop_cons_ok op0 g h0,
      ih g (n + 1) (hg g (by simp)) (fun op hop => hg op (by simp [hop]))]
    simp only [List.length_cons]
    congr 2
    omega

/-- C6: when the submission answers not-done and the two status re-fetches
answer not-done then done with a result list, generateVideo issues exactly 2
re-fetches and returns the first generated video of the final response; any
further videos in the list play no role in the result. -/
theorem poll_sequence_two_refetches
    (env : VideoEnv) (params : GenerateVideoParams) (payload : GenerateVideoPayload)
    (op1 op2 op3 : Operation) (resp : OperationResponse)
    (gv : GeneratedVideo) (rest : List GeneratedVideo) (vo : Video) (u : String)
    (res : FetchResponse) (morePolls : List (Except String Operation))
    (hp : buildPayload params = Except.ok payload)
    (hs : env.submit payload = Except.ok op1)
    (h1 : op1.done = false)
    (hpolls : env.polls = Except.ok op2 :: Except.ok op3 :: morePolls)
    (h2 : op2.done = false)
    (h3 : op3.done = true)
    (hresp : op3.response = some resp)
    (hvids : resp.generatedVideos = some (gv :: rest))
    (hvideo : gv.video = some vo)
    (huri : vo.uri = some u)
    (hne : u ≠ "")
    (hfetch : env.fetch (decodeURIComponent u ++ "&key=" ++ env.apiKey) = Except.ok res)
    (hok : res.ok = true) :
    generateVideo env params =
      some (Except.ok
        { objectUrl := env.createObjectURL res.blob, blob := res.blob,
          uri := decodeURIComponent u, video := vo },
        ⟨1, 2, some (decodeURIComponent u ++ "&key=" ++ env.apiKey)⟩) := by
  unfold generateVideo
  rw [hp]
  dsimp only
  rw [hs]
  dsimp only
  rw [hpolls, pollLoop_cons_ok op1 op2 h1, pollLoop_cons_ok op2 op3 h2,
    pollLoop_done op3 h3]
  simp [hresp, hvids, hvideo, huri, hne, hfetch, hok]

/-- C6 witness: a concrete trace of one not-done submission answer, one
not-done re-fetch and one done re-fetch carrying two videos; the result is
the first of the two. -/
theorem poll_sequence_two_refetches_witness :
    generateVideo
      { apiKey := "K",
        submit := fun _ => Except.ok ⟨false, none⟩,
        polls := [Except.ok ⟨false, none⟩,
          Except.ok ⟨true, some ⟨some [⟨some ⟨some "u%2F1"⟩⟩, ⟨some ⟨some "u2"⟩⟩]⟩⟩],
        fetch := fun _ => Except.ok ⟨true, 200, "OK", "BYTES"⟩,
        createObjectURL := fun b => "blob:" ++ b }
      { model := "veo", prompt := "p", mode := GenerationMode.TEXT_TO_VIDEO,
        resolution := "720p", aspectRatio := "16:9", startFrame := none,
        endFrame := none, isLooping := false, referenceImages := none,
        styleImage := none, inputVideoObject := none } =
      some (Except.ok
        { objectUrl := "blob:" ++ "BYTES", blob := "BYTES",
          uri := decodeURIComponent "u%2F1", video := ⟨some "u%2F1"⟩ },
        ⟨1, 2, some (decodeURIComponent "u%2F1" ++ "&key=" ++ "K")⟩) :=
  poll_sequence_two_refetches
    { apiKey := "K",
      submit := fun _ => Except.ok ⟨false, none⟩,
      polls := [Except.ok ⟨false, none⟩,
        Except.ok ⟨true, some ⟨some [⟨some ⟨some "u%2F1"⟩⟩, ⟨some ⟨some "u2"⟩⟩]⟩⟩],
      fetch := fun _ => Except.ok ⟨true, 200, "OK", "BYTES"⟩,
      createObjectURL := fun b => "blob:" ++ b }
    { model := "veo", prompt := "p", mode := GenerationMode.TEXT_TO_VIDEO,
      resolution := "720p", aspectRatio := "16:9", startFrame := none,
      endFrame := none, isLooping := false, referenceImages := none,
      styleImage := none, inputVideoObject := none }
    _ ⟨false, none⟩ ⟨false, none⟩
    ⟨true, some ⟨some [⟨some ⟨some "u%2F1"⟩⟩, ⟨some ⟨some "u2"⟩⟩]⟩⟩
    ⟨some [⟨some ⟨some "u%2F1"⟩⟩, ⟨some ⟨some "u2"⟩⟩]⟩
    ⟨some ⟨some "u%2F1"⟩⟩ [⟨some ⟨some "u2"⟩⟩] ⟨some "u%2F1"⟩ "u%2F1"
    ⟨true, 200, "OK", "BYTES"⟩ []
    rfl rfl rfl rfl rfl rfl rfl rfl rfl rfl (by decide) rfl rfl
/-- C7: once the polled operation is done with a result payload, generateVideo
fails with the fixed message when the payload holds no generated videos, and
with the missing-URI message when the first generated video has no
retrievable URI; the call trace shows that no binary fetch was issued in
either case. -/
theorem done_result_inspection
    (env : VideoEnv) (params : GenerateVideoParams) (payload : GenerateVideoPayload)
    (op0 opF : Operation) (n : Nat) (resp : OperationResponse)
    (hp : buildPayload params = Except.ok payload)
    (hs : env.submit payload = Except.ok op0)
    (hl : pollLoop op0 env.polls 0 = some (Except.ok opF, n))
    (hresp : opF.response = some resp) :
    (resp.generatedVideos.getD [] = [] →
      generateVideo env params =
        some (Except.error "No videos were generated.", ⟨1, n, none⟩)) ∧
    (∀ gv rest, resp.generatedVideos = some (gv :: rest) →
      retrievableUri gv = none →
      generateVideo env params =
        some (Except.error "Generated video is missing a URI.", ⟨1, n, none⟩)) := by
  constructor
  · intro hempty
    unfold generateVideo
    rw [hp]
    dsimp only
    rw [hs]
    dsimp only
    rw [hl]
    dsimp only
    rw [hresp]
    dsimp only
    cases hv : resp.generatedVideos with
    | none => rfl
    | some l =>
      rw [hv] at hempty
      simp only [Option.getD_some] at hempty
      subst hempty
      rfl
  · intro gv rest hv hru
    unfold generateVideo
    rw [hp]
    dsimp only
    rw [hs]
    dsimp only
    rw [hl]
    dsimp only
    rw [hresp]
    dsimp only
    rw [hv]
    dsimp only
    unfold retrievableUri at hru
    cases hgv : gv.video with
    | none => rfl
    | some vo =>
      rw [hgv] at hru
      dsimp only at hru
      dsimp only
      cases hu : vo.uri with
      | none => rfl
      | some u =>
        rw [hu] at hru
        dsimp only at hru
        dsimp only
        split at hru
        next hcond => rw [if_pos hcond]
        next hcond => exact absurd hru (by simp)

/-- C7 witness: a submission that answers done at once with a result holding
zero generated videos fails with the fixed message and no binary fetch. -/
theorem done_result_inspection_witness :
    generateVideo
      { apiKey := "K", submit := fun _ => Except.ok ⟨true, some ⟨some []⟩⟩,
        polls := [], fetch := fun _ => Except.ok ⟨true, 200, "OK", "B"⟩,
        createObjectURL := fun b => b }
      { model := "veo", prompt := "p", mode := GenerationMode.TEXT_TO_VIDEO,
        resolution := "720p", aspectRatio := "16:9", startFrame := none,
        endFrame := none, isLooping := false, referenceImages := none,
        styleImage := none, inputVideoObject := none } =
      some (Except.error "No videos were generated.", ⟨1, 0, none⟩) :=
  (done_result_inspection
    { apiKey := "K", submit := fun _ => Except.ok ⟨true, some ⟨some []⟩⟩,
      polls := [], fetch := fun _ => Except.ok ⟨true, 200, "OK", "B"⟩,
      createObjectURL := fun b => b }
    { model := "veo", prompt := "p", mode := GenerationMode.TEXT_TO_VIDEO,
      resolution := "720p", aspectRatio := "16:9", startFrame := none,
      endFrame := none, isLooping := false, referenceImages := none,
      styleImage := none, inputVideoObject := none }
    _ ⟨true, some ⟨some []⟩⟩ ⟨true, some ⟨some []⟩⟩ 0 ⟨some []⟩
    rfl rfl rfl rfl).1 rfl

/-- C9: the binary asset fetch is issued at the percent-decoded URI with the
API key appended as a query parameter, and a fulfilled non-ok transport
response fails with a message that carries the numeric status and the status
text. -/
theorem fetch_url_and_non_ok_error
    (env : VideoEnv) (params : GenerateVideoParams) (payload : GenerateVideoPayload)
    (op0 opF : Operation) (n : Nat) (resp : OperationResponse)
    (gv : GeneratedVideo) (rest : List GeneratedVideo) (vo : Video) (u : String)
    (res : FetchResponse)
    (hp : buildPayload params = Except.ok payload)
    (hs : env.submit payload = Except.ok op0)
    (hl : pollLoop op0 env.polls 0 = some (Except.ok opF, n))
    (hresp : opF.response = some resp)
    (hvids : resp.generatedVideos = some (gv :: rest))
    (hvideo : gv.video = some vo)
    (huri : vo.uri = some u)
    (hne : u ≠ "")
    (hfetch : env.fetch (decodeURIComponent u ++ "&key=" ++ env.apiKey) = Except.ok res)
    (hnotok : res.ok = false) :
    generateVideo env params =
      some (Except.error
        ("Failed to fetch video: " ++ toString res.status ++ " " ++ res.statusText),
        ⟨1, n, some (decodeURIComponent u ++ "&key=" ++ env.apiKey)⟩) ∧
    (∃ a b, ("Failed to fetch video: " ++ toString res.status ++ " " ++ res.statusText : String)
      = a ++ toString res.status ++ b) ∧
    (∃ a b, ("Failed to fetch video: " ++ toString res.status ++ " " ++ res.statusText : String)
      = a ++ res.statusText ++ b) := by
  refine ⟨?_, ⟨"Failed to fetch video: ", " " ++ res.statusText, by
      simp [String.append_assoc]⟩,
    ⟨"Failed to fetch video: " ++ toString res.status ++ " ", "", by
      simp [String.append_assoc]⟩⟩
  unfold generateVideo
  rw [hp]
  dsimp only
  rw [hs]
  dsimp only
  rw [hl]
  dsimp only
  rw [hresp]
  dsimp only
  rw [hvids]
  dsimp only
  rw [hvideo]
  dsimp only
  rw [huri]
  dsimp only
  rw [if_neg hne]
  rw [hfetch]
  dsimp only
  rw [if_neg (by simp [hnotok])]

/-- C9 witness: a concrete completed operation whose video URI is
percent-encoded, and a 404 transport answer at the decoded, key-carrying
URL. -/
theorem fetch_url_and_non_ok_error_witness :
    generateVideo
      { apiKey := "K",
        submit := fun _ => Except.ok ⟨true, some ⟨some [⟨some ⟨some "u%2F1"⟩⟩]⟩⟩,
        polls := [], fetch := fun _ => Except.ok ⟨false, 404, "Not Found", ""⟩,
        createObjectURL := fun b => b }
      { model := "veo", prompt := "p", mode := GenerationMode.TEXT_TO_VIDEO,
        resolution := "720p", aspectRatio := "16:9", startFrame := none,
        endFrame := none, isLooping := false, referenceImages := none,
        styleImage := none, inputVideoObject := none } =
      some (Except.error
        ("Failed to fetch video: " ++ toString (404 : Nat) ++ " " ++ "Not Found"),
        ⟨1, 0, some (decodeURIComponent "u%2F1" ++ "&key=" ++ "K")⟩) :=
  (fetch_url_and_non_ok_error
    { apiKey := "K",
      submit := fun _ => Except.ok ⟨true, some ⟨some [⟨some ⟨some "u%2F1"⟩⟩]⟩⟩,
      polls := [], fetch := fun _ => Except.ok ⟨false, 404, "Not Found", ""⟩,
      createObjectURL := fun b => b }
    { model := "veo", prompt := "p", mode := GenerationMode.TEXT_TO_VIDEO,
      resolution := "720p", aspectRatio := "16:9", startFrame := none,
      endFrame := none, isLooping := false, referenceImages := none,
      styleImage := none, inputVideoObject := none }
    _ ⟨true, some ⟨some [⟨some ⟨some "u%2F1"⟩⟩]⟩⟩
    ⟨true, some ⟨some [⟨some ⟨some "u%2F1"⟩⟩]⟩⟩ 0
    ⟨some [⟨some ⟨some "u%2F1"⟩⟩]⟩ ⟨some ⟨some "u%2F1"⟩⟩ [] ⟨some "u%2F1"⟩ "u%2F1"
    ⟨false, 404, "Not Found", ""⟩
    rfl rfl rfl rfl rfl rfl rfl (by decide) rfl rfl).1
/-- C1 counterexample: a submission rejection with message "quota exceeded"
reaches the caller of generateVideo as exactly "quota exceeded", which is
not the wrapped message the claim requires. -/
theorem generateVideo_submit_error_unwrapped_cex :
    generateVideo
      { apiKey := "K", submit := fun _ => Except.error "quota exceeded",
        polls := [], fetch := fun _ => Except.error "unreachable",
        createObjectURL := fun b => b }
      { model := "veo", prompt := "a cat", mode := GenerationMode.TEXT_TO_VIDEO,
        resolution := "720p", aspectRatio := "16:9", startFrame := none,
        endFrame := none, isLooping := false, referenceImages := none,
        styleImage := none, inputVideoObject := none } =
      some (Except.error "quota exceeded", ⟨1, 0, none⟩) ∧
    "quota exceeded" ≠ "Failed to generate video: " ++ "quota exceeded" := by
  constructor
  · rfl
  · decide

/-- C1 as amended: a failure of the submission, of any status re-fetch, or
of the binary asset fetch reaches the caller of generateVideo with the
original message text verbatim and no wrapping prefix added. -/
theorem generateVideo_error_propagation
    (env : VideoEnv) (params : GenerateVideoParams) (payload : GenerateVideoPayload)
    (m : String)
    (hp : buildPayload params = Except.ok payload) :
    (env.submit payload = Except.error m →
      generateVideo env params = some (Except.error m, ⟨1, 0, none⟩)) ∧
    (∀ (op0 : Operation) (goods : List Operation)
        (rest : List (Except String Operation)),
      env.submit payload = Except.ok op0 → op0.done = false →
      (∀ op ∈ goods, Operation.done op = false) →
      env.polls = goods.map Except.ok ++ Except.error m :: rest →
      generateVideo env params =
        some (Except.error m, ⟨1, goods.length + 1, none⟩)) ∧
    (∀ (op0 opF : Operation) (n : Nat) (resp : OperationResponse)
        (gv : GeneratedVideo) (vids : List GeneratedVideo) (vo : Video) (u : String),
      env.submit payload = Except.ok op0 →
      pollLoop op0 env.polls 0 = some (Except.ok opF, n) →
      opF.response = some resp →
      resp.generatedVideos = some (gv :: vids) →
      gv.video = some vo → vo.uri = some u → u ≠ "" →
      env.fetch (decodeURIComponent u ++ "&key=" ++ env.apiKey) = Except.error m →
      generateVideo env params =
        some (Except.error m,
          ⟨1, n, some (decodeURIComponent u ++ "&key=" ++ env.apiKey)⟩)) := by
  refine ⟨?_, ?_, ?_⟩
  · intro hs
    unfold generateVideo
    rw [hp]
    dsimp only
    rw [hs]
  · intro op0 goods rest hs h0 hg hpolls
    unfold generateVideo
    rw [hp]
    dsimp only
    rw [hs]
    dsimp only
    rw [hpolls, pollLoop_error_trace m rest goods op0 0 h0 hg]
    dsimp only
    simp
  · intro op0 opF n resp gv vids vo u hs hl hresp hvids hvideo huri hne hfetch
    unfold generateVideo
    rw [hp]
    dsimp only
    rw [hs]
    dsimp only
    rw [hl]
    dsimp only
    rw [hresp]
    dsimp only
    rw [hvids]
    dsimp only
    rw [hvideo]
    dsimp only
    rw [huri]
    dsimp only
    rw [if_neg hne]
    rw [hfetch]

/-- C1 witness for the amended claim: the same environment as the
counterexample, through the first part of the propagation theorem. -/
theorem generateVideo_error_propagation_witness :
    generateVideo
      { apiKey := "K", submit := fun _ => Except.error "quota exceeded",
        polls := [], fetch := fun _ => Except.error "unreachable",
        createObjectURL := fun b => b }
      { model := "veo", prompt := "a cat", mode := GenerationMode.TEXT_TO_VIDEO,
        resolution := "720p", aspectRatio := "16:9", startFrame := none,
        endFrame := none, isLooping := false, referenceImages := none,
        styleImage := none, inputVideoObject := none } =
      some (Except.error "quota exceeded", ⟨1, 0, none⟩) :=
  (generateVideo_error_propagation
    { apiKey := "K", submit := fun _ => Except.error "quota exceeded",
      polls := [], fetch := fun _ => Except.error "unreachable",
      createObjectURL := fun b => b }
    { model := "veo", prompt := "a cat", mode := GenerationMode.TEXT_TO_VIDEO,
      resolution := "720p", aspectRatio := "16:9", startFrame := none,
      endFrame := none, isLooping := false, referenceImages := none,
      styleImage := none, inputVideoObject := none }
    _ "quota exceeded" rfl).1 rfl
end GeminiService
